import Mathlib

/-!
Verification of the concurrent deployment engine (`scripts/deploy_async.py`
and `scripts/validate.py`) of the network-automation repository.

The device session and the filesystem are modelled as oracles: every remote
or filesystem operation either returns a value or raises, represented by
`Except String α`.  Side effects on the device are recorded as an event
trace, so that ordering invariants (backup before mutation, exactly one
disconnect, the zero-side-effect fast path) become statements about the
trace produced by a run.
-/

namespace NetDeploy

/-- Python `str.strip()` (ASCII whitespace): drop leading and trailing
whitespace characters. -/
def pyStrip (s : String) : String :=
  ⟨(((s.data.dropWhile Char.isWhitespace).reverse).dropWhile Char.isWhitespace).reverse⟩

/-- Python `str.startswith(c)` for a one-character marker. -/
def pyStartsWith (s : String) (c : Char) : Bool :=
  match s.data with
  | [] => false
  | c0 :: _ => c0 = c

/-- Split a character list at every newline; a trailing newline produces a
trailing empty segment. -/
def splitNl : List Char → List (List Char)
  | [] => [[]]
  | c :: rest =>
    if c = '\n' then [] :: splitNl rest
    else
      match splitNl rest with
      | [] => [[c]]
      | l :: ls => (c :: l) :: ls

/-- Python `str.splitlines()` for `\n`-separated text: splits on newlines,
keeps interior empty lines, and drops only the phantom empty segment after a
trailing newline.  Each resulting line carries no `\n`, so the
`rstrip("\n")` in `get_running_config` is the identity and is not modelled
separately. -/
def pySplitlines (s : String) : List String :=
  if s.data = [] then []
  else
    let segs := splitNl s.data
    (if segs.getLast? = some [] then segs.dropLast else segs).map fun l => ⟨l⟩

/-- Python `"\n".join(...)` and friends. -/
def joinSep (sep : String) : List String → String
  | [] => ""
  | [x] => x
  | x :: xs => x ++ sep ++ joinSep sep xs

/-- `compute_delta` from `scripts/deploy_async.py` (lines 35–50): iterate
`intended` in order, strip each line, skip blank lines and lines starting
with the comment marker `#`, and emit every line not present in the
membership set built from `running`. -/
def compute_delta (running : List String) (intended : List String) : List String :=
  match intended with
  | [] => []
  | l :: rest =>
    let line := pyStrip l
    if line = "" ∨ pyStartsWith line '#' then compute_delta running rest
    else if line ∈ running then compute_delta running rest
    else line :: compute_delta running rest

/-- The normalized intended sequence: each line trimmed, blank lines and
comment lines discarded.  This is the sequence `compute_delta` actually
iterates over after its `continue`s. -/
def normalizeIntended (intended : List String) : List String :=
  (intended.map pyStrip).filter
    (fun line => ¬ (line = "" ∨ pyStartsWith line '#'))

/-- `compute_delta` is the normalized intended sequence filtered down to the
lines absent from `running`. -/
lemma compute_delta_eq_filter (running intended : List String) :
    compute_delta running intended =
      (normalizeIntended intended).filter (fun line => line ∉ running) := by
  induction intended with
  | nil => simp [compute_delta, normalizeIntended]
  | cons l rest ih =>
    by_cases hb : pyStrip l = ""
    · simp only [compute_delta, normalizeIntended, List.map_cons, List.filter_cons] at ih ⊢
      simpa [hb] using ih
    · by_cases hc : pyStartsWith (pyStrip l) '#'
      · simp only [compute_delta, normalizeIntended, List.map_cons, List.filter_cons] at ih ⊢
        simpa [hb, hc] using ih
      · by_cases hm : pyStrip l ∈ running
        · simp only [compute_delta, normalizeIntended, List.map_cons, List.filter_cons] at ih ⊢
          simpa [hb, hc, hm] using ih
        · simp only [compute_delta, normalizeIntended, List.map_cons, List.filter_cons] at ih ⊢
          simpa [hb, hc, hm] using ih

lemma mem_compute_delta {running intended : List String} {l : String}
    (h : l ∈ compute_delta running intended) :
    l ∈ normalizeIntended intended ∧ l ∉ running := by
  rw [compute_delta_eq_filter] at h
  have := List.of_mem_filter h
  exact ⟨List.mem_of_mem_filter h, by simpa using this⟩

lemma compute_delta_sublist (running intended : List String) :
    List.Sublist (compute_delta running intended) (normalizeIntended intended) := by
  rw [compute_delta_eq_filter]
  exact List.filter_sublist _

lemma mem_of_normalized_not_running {running intended : List String} {l : String}
    (hl : l ∈ normalizeIntended intended) (hr : l ∉ running) :
    l ∈ compute_delta running intended := by
  rw [compute_delta_eq_filter]
  exact List.mem_filter.mpr ⟨hl, by simpa using hr⟩

/-- The Netmiko session primitives used by the engine, one oracle per call
site so that every remote interaction can succeed or raise independently.
Each field either returns the command output or raises (`Except.error`
carries `str(e)`).
`showRunning` / `showBackup`: the two `send_command("show configuration
commands")` calls (running-config fetch and backup capture);
`configMode` / `configModeRetry`: the two `config_mode()` calls (apply path
and flagged-validation branch); `pushConfig`: `send_config_set(delta)`;
`commitCmd` / `saveCmd`: `send_command_timing("commit"/"save")`;
`exitConfig`: `exit_config_mode()`; `valOspf` / `valBgp` / `valRoute`: the
three diagnostic `send_command` calls (`show ip ospf neighbor | no-more`,
`show ip bgp summary | no-more`, `show ip route | match 0.0.0.0/0`). -/
structure Conn where
  showRunning : Except String String
  showBackup : Except String String
  configMode : Except String Unit
  pushConfig : List String → Except String String
  commitCmd : Except String String
  saveCmd : Except String String
  exitConfig : Except String Unit
  valOspf : Except String String
  valBgp : Except String String
  valRoute : Except String String
  configModeRetry : Except String Unit

/-- The per-device environment of one `apply_delta` call: session
establishment (`connect(host)`), the intended-config artifact read
(`intended_file.read_text()`), the backup file write
(`p.write_text(txt)` in `backup_device`) and the validation-log write. -/
structure Env where
  connect : Except String Conn
  readIntended : Except String String
  writeBackup : String → Except String Unit
  writeLog : String → Except String Unit

/-- Observable side effects of one deployment task, in program order.
`backupPersisted` is recorded only when the backup file write succeeds;
session operations are recorded when they are attempted. -/
inductive Event where
  | showCmd
  | backupPersisted
  | configModeEnter
  | pushDelta
  | commitCmd
  | saveCmd
  | configModeExit
  | validateCmd
  | logWrite
  | disconnect
deriving DecidableEq, Repr

/-- The result dictionary of `apply_delta`, initialised to
`{"changed": False, "ok": True, "message": ""}`. -/
structure DeployResult where
  name : String
  host : String
  changed : Bool
  ok : Bool
  message : String
deriving DecidableEq, Repr

/-- The `except Exception as e` handler of `apply_delta`: sets
`ok = False` and `message = f"error: {e}"`, leaving `changed` as it was. -/
def errResult (r : DeployResult) (e : String) : DeployResult :=
  { r with ok := false, message := "error: " ++ e }

/-- `validate_post` (deploy_async.py lines 59–88): runs three read-only
diagnostic commands in a fixed order.  The protocol-signature checks in the
source are `pass` statements, so the local `ok` is never set to `False`;
the verdict component of a normal return is the constant `true`, and the
evidence text is the `"\n"`-join of `f"{hdr}\n{txt}"` blocks.  An error
from any command propagates to the caller. -/
def validate_post (conn : Conn) : Except String (Bool × String) × List Event :=
  match conn.valOspf with
  | .error e => (.error e, [.validateCmd])
  | .ok out1 =>
    match conn.valBgp with
    | .error e => (.error e, [.validateCmd, .validateCmd])
    | .ok out2 =>
      match conn.valRoute with
      | .error e => (.error e, [.validateCmd, .validateCmd, .validateCmd])
      | .ok out3 =>
        (.ok (true,
          "\nshow ip ospf neighbor\n" ++ out1 ++ "\n" ++
          "\nshow ip bgp summary\n" ++ out2 ++ "\n" ++
          "\nshow ip route | match 0.0.0.0/0\n" ++ out3),
         [.validateCmd, .validateCmd, .validateCmd])

/-- The `try` block of `apply_delta` together with its `except` handler
(deploy_async.py lines 94–132).  Total: every raise inside the block is
converted by the handler into a result with `ok = false`.  The trace lists
the side effects in program order; `disconnect` (the `finally`) is appended
by `apply_delta` itself. -/
def applyDeltaBody (r0 : DeployResult) (conn : Conn) (env : Env) :
    DeployResult × List Event :=
  match conn.showRunning with
  | .error e => (errResult r0 e, [.showCmd])
  | .ok txt =>
    let running := pySplitlines txt
    match env.readIntended with
    | .error e => (errResult r0 e, [.showCmd])
    | .ok itxt =>
      let intended := (pySplitlines itxt).map pyStrip
      let delta := compute_delta running intended
      if delta = [] then
        ({ r0 with message := "already in desired state" }, [.showCmd])
      else
        -- backup_device: re-read the running config and persist it
        match conn.showBackup with
        | .error e => (errResult r0 e, [.showCmd, .showCmd])
        | .ok btxt =>
          match env.writeBackup btxt with
          | .error e => (errResult r0 e, [.showCmd, .showCmd])
          | .ok _ =>
            match conn.configMode with
            | .error e => (errResult r0 e,
                [.showCmd, .showCmd, .backupPersisted, .configModeEnter])
            | .ok _ =>
              match conn.pushConfig delta with
              | .error e => (errResult r0 e,
                  [.showCmd, .showCmd, .backupPersisted, .configModeEnter, .pushDelta])
              | .ok _ =>
                match conn.commitCmd with
                | .error e => (errResult r0 e,
                    [.showCmd, .showCmd, .backupPersisted, .configModeEnter, .pushDelta,
                     .commitCmd])
                | .ok _ =>
                  match conn.saveCmd with
                  | .error e => (errResult r0 e,
                      [.showCmd, .showCmd, .backupPersisted, .configModeEnter, .pushDelta,
                       .commitCmd, .saveCmd])
                  | .ok _ =>
                    match conn.exitConfig with
                    | .error e => (errResult r0 e,
                        [.showCmd, .showCmd, .backupPersisted, .configModeEnter, .pushDelta,
                         .commitCmd, .saveCmd, .configModeExit])
                    | .ok _ =>
                      let pre : List Event :=
                        [.showCmd, .showCmd, .backupPersisted, .configModeEnter, .pushDelta,
                         .commitCmd, .saveCmd, .configModeExit]
                      match validate_post conn with
                      | (.error e, vtr) => (errResult r0 e, pre ++ vtr)
                      | (.ok (vok, valText), vtr) =>
                        -- lines 116–119: mutate result, then write the log
                        let r1 : DeployResult :=
                          { r0 with
                            changed := true
                            ok := vok
                            message := "applied delta and validated" }
                        match env.writeLog valText with
                        | .error e => (errResult r1 e, pre ++ vtr ++ [.logWrite])
                        | .ok _ =>
                          if vok then (r1, pre ++ vtr ++ [.logWrite])
                          else
                            -- flagged branch: re-enter config mode, extend message
                            match conn.configModeRetry with
                            | .error e => (errResult r1 e,
                                pre ++ vtr ++ [.logWrite, .configModeEnter])
                            | .ok _ =>
                              ({ r1 with message := r1.message ++
                                  " (validation flagged issues; manual rollback recommended using backup file)" },
                               pre ++ vtr ++ [.logWrite, .configModeEnter])

/-- `apply_delta` (deploy_async.py lines 90–134).  `connect(host)` happens
before the `try`, so a connection failure propagates as an exception
(`Except.error`) and the `finally`-disconnect does not run; once connected,
the body always yields a result and the session is disconnected. -/
def initResult (name host : String) : DeployResult :=
  { name := name, host := host, changed := false, ok := true, message := "" }

def apply_delta (name host : String) (env : Env) :
    Except String DeployResult × List Event :=
  let r0 : DeployResult := initResult name host
  match env.connect with
  | .error e => (.error e, [])
  | .ok conn =>
    let p := applyDeltaBody r0 conn env
    (.ok p.1, p.2 ++ [.disconnect])

/-- One device of a run: inventory name, host, and its environment. -/
structure Device where
  name : String
  host : String
  env : Env

/-- The result-collection loop of `main` (deploy_async.py lines 155–165):
every task runs, and `fut.result()` re-raises the first stored exception,
so the run yields a list of results only when no task raised.  Completion
order is abstracted to input order; which results exist and their values
are unaffected by that abstraction. -/
def runDeploy (devs : List Device) : Except String (List DeployResult) :=
  match devs with
  | [] => .ok []
  | d :: rest =>
    match (apply_delta d.name d.host d.env).1 with
    | .error e => .error e
    | .ok r =>
      match runDeploy rest with
      | .error e => .error e
      | .ok rs => .ok (r :: rs)

/-- Rendering of `check_device`'s log pairs:
`"\n".join([f"\n$ {cmd}\n{txt}" for cmd, txt in logs])`. -/
def renderLogs (logs : List (String × String)) : String :=
  joinSep "\n" (logs.map (fun p => "\n$ " ++ p.1 ++ "\n" ++ p.2))

/-- `check_device` from `scripts/validate.py` (lines 9–34): runs the same
three diagnostic commands with per-command soft checks that are no-ops;
`ok` flips to `false` exactly when a command raises, in which case the log
gains an `("exception", str(e))` entry.  `connect` is again outside the
`try`, so a connection failure propagates. -/
def check_device (env : Env) : Except String (Bool × String) :=
  match env.connect with
  | .error e => .error e
  | .ok conn =>
    match conn.valOspf with
    | .error e => .ok (false, renderLogs [("exception", e)])
    | .ok o1 =>
      match conn.valBgp with
      | .error e =>
          .ok (false, renderLogs [("show ip ospf neighbor", o1), ("exception", e)])
      | .ok o2 =>
        match conn.valRoute with
        | .error e =>
            .ok (false, renderLogs [("show ip ospf neighbor", o1),
              ("show ip bgp summary", o2), ("exception", e)])
        | .ok o3 =>
            .ok (true, renderLogs [("show ip ospf neighbor", o1),
              ("show ip bgp summary", o2),
              ("show ip route | match 0.0.0.0/0", o3)])

/-- Mutating steps of a deployment: configuration-mode entry, delta push,
commit, save. -/
def mutEvent : Event → Bool
  | .configModeEnter => true
  | .pushDelta => true
  | .commitCmd => true
  | .saveCmd => true
  | _ => false

lemma validate_post_tr_all (conn : Conn) :
    ∀ ev ∈ (validate_post conn).2, ev = Event.validateCmd := by
  unfold validate_post
  repeat' split
  all_goals simp_all

lemma not_mem_of_all_validateCmd {l : List Event}
    (h : ∀ ev ∈ l, ev = Event.validateCmd) {a : Event}
    (ha : a ≠ Event.validateCmd) : a ∉ l :=
  fun hm => ha (h a hm)

lemma count_zero_of_all_validateCmd {l : List Event}
    (h : ∀ ev ∈ l, ev = Event.validateCmd) {a : Event}
    (ha : a ≠ Event.validateCmd) : l.count a = 0 :=
  List.count_eq_zero.mpr (not_mem_of_all_validateCmd h ha)

/-- The apply-prefix of the trace once every step up to `exit_config_mode`
has succeeded. -/
def applyPre : List Event :=
  [.showCmd, .showCmd, .backupPersisted, .configModeEnter, .pushDelta,
   .commitCmd, .saveCmd, .configModeExit]

/-- Exhaustive characterization of the traces `applyDeltaBody` can produce:
one shape per exit path of the `try`/`except` block. -/
lemma body_trace_shapes (r0 : DeployResult) (conn : Conn) (env : Env) :
    ∃ vtr : List Event, (∀ ev ∈ vtr, ev = Event.validateCmd) ∧
      ((applyDeltaBody r0 conn env).2 = [.showCmd] ∨
       (applyDeltaBody r0 conn env).2 = [.showCmd, .showCmd] ∨
       (applyDeltaBody r0 conn env).2 =
         [.showCmd, .showCmd, .backupPersisted, .configModeEnter] ∨
       (applyDeltaBody r0 conn env).2 =
         [.showCmd, .showCmd, .backupPersisted, .configModeEnter, .pushDelta] ∨
       (applyDeltaBody r0 conn env).2 =
         [.showCmd, .showCmd, .backupPersisted, .configModeEnter, .pushDelta, .commitCmd] ∨
       (applyDeltaBody r0 conn env).2 =
         [.showCmd, .showCmd, .backupPersisted, .configModeEnter, .pushDelta, .commitCmd,
          .saveCmd] ∨
       (applyDeltaBody r0 conn env).2 = applyPre ∨
       (applyDeltaBody r0 conn env).2 = applyPre ++ vtr ∨
       (applyDeltaBody r0 conn env).2 = applyPre ++ vtr ++ [.logWrite] ∨
       (applyDeltaBody r0 conn env).2 = applyPre ++ vtr ++ [.logWrite, .configModeEnter]) := by
  cases h1 : conn.showRunning with
  | error e => exact ⟨[], by simp, by simp [applyDeltaBody, h1]⟩
  | ok txt =>
  cases h2 : env.readIntended with
  | error e => exact ⟨[], by simp, by simp [applyDeltaBody, h1, h2]⟩
  | ok itxt =>
  by_cases hd : compute_delta (pySplitlines txt) ((pySplitlines itxt).map pyStrip) = []
  · exact ⟨[], by simp, by simp [applyDeltaBody, h1, h2, hd]⟩
  · cases h3 : conn.showBackup with
    | error e => exact ⟨[], by simp, by simp [applyDeltaBody, h1, h2, hd, h3]⟩
    | ok btxt =>
    cases h4 : env.writeBackup btxt with
    | error e => exact ⟨[], by simp, by simp [applyDeltaBody, h1, h2, hd, h3, h4]⟩
    | ok u4 =>
    cases h5 : conn.configMode with
    | error e => exact ⟨[], by simp, by simp [applyDeltaBody, h1, h2, hd, h3, h4, h5]⟩
    | ok u5 =>
    cases h6 : conn.pushConfig
        (compute_delta (pySplitlines txt) ((pySplitlines itxt).map pyStrip)) with
    | error e => exact ⟨[], by simp, by simp [applyDeltaBody, h1, h2, hd, h3, h4, h5, h6]⟩
    | ok o6 =>
    cases h7 : conn.commitCmd with
    | error e => exact ⟨[], by simp, by simp [applyDeltaBody, h1, h2, hd, h3, h4, h5, h6, h7]⟩
    | ok o7 =>
    cases h8 : conn.saveCmd with
    | error e =>
        exact ⟨[], by simp, by simp [applyDeltaBody, h1, h2, hd, h3, h4, h5, h6, h7, h8]⟩
    | ok o8 =>
    cases h9 : conn.exitConfig with
    | error e =>
        exact ⟨[], by simp,
          by simp [applyDeltaBody, h1, h2, hd, h3, h4, h5, h6, h7, h8, h9, applyPre]⟩
    | ok u9 =>
    have hv := validate_post_tr_all conn
    rcases hvp : validate_post conn with ⟨ev | ⟨vok, vtext⟩, vtr⟩
    · refine ⟨vtr, by rw [hvp] at hv; exact hv, ?_⟩
      simp [applyDeltaBody, h1, h2, hd, h3, h4, h5, h6, h7, h8, h9, hvp, applyPre]
    · rw [hvp] at hv
      cases h10 : env.writeLog vtext with
      | error e =>
          refine ⟨vtr, hv, ?_⟩
          simp [applyDeltaBody, h1, h2, hd, h3, h4, h5, h6, h7, h8, h9, hvp, h10, applyPre]
      | ok u10 =>
        cases vok with
        | true =>
            refine ⟨vtr, hv, ?_⟩
            simp [applyDeltaBody, h1, h2, hd, h3, h4, h5, h6, h7, h8, h9, hvp, h10, applyPre]
        | false =>
          cases h11 : conn.configModeRetry with
          | error e =>
              refine ⟨vtr, hv, ?_⟩
              simp [applyDeltaBody, h1, h2, hd, h3, h4, h5, h6, h7, h8, h9, hvp, h10, h11,
                applyPre]
          | ok u11 =>
              refine ⟨vtr, hv, ?_⟩
              simp [applyDeltaBody, h1, h2, hd, h3, h4, h5, h6, h7, h8, h9, hvp, h10, h11,
                applyPre]

lemma apply_delta_conn (name host : String) (env : Env) (conn : Conn)
    (h : env.connect = Except.ok conn) :
    apply_delta name host env =
      (Except.ok (applyDeltaBody (initResult name host) conn env).1,
       (applyDeltaBody (initResult name host) conn env).2 ++ [Event.disconnect]) := by
  simp [apply_delta, h]

lemma body_no_disconnect (r0 : DeployResult) (conn : Conn) (env : Env) :
    Event.disconnect ∉ (applyDeltaBody r0 conn env).2 := by
  obtain ⟨vtr, hv, hsh⟩ := body_trace_shapes r0 conn env
  have hnv : Event.disconnect ∉ vtr :=
    not_mem_of_all_validateCmd hv (by decide)
  rcases hsh with h|h|h|h|h|h|h|h|h|h <;> rw [h] <;>
    simp [applyPre, hnv]

/-- C10: once the session is established, `disconnect` is executed exactly
once on every path out of `apply_delta` (the `finally` block), and it is the
final event of the task. -/
theorem apply_delta_disconnect_once (name host : String) (env : Env) (conn : Conn)
    (h : env.connect = Except.ok conn) :
    ((apply_delta name host env).2.count Event.disconnect = 1) ∧
    (apply_delta name host env).2.getLast? = some Event.disconnect := by
  rw [apply_delta_conn name host env conn h]
  constructor
  · simp [List.count_append,
      List.count_eq_zero.mpr (body_no_disconnect (initResult name host) conn env)]
  · simp

/-- C4: an empty delta makes the task terminate with
`changed=false, ok=true, message="already in desired state"`, and the task's
only session events are the running-config read and the disconnect: no
backup is persisted, configuration mode is never entered, no lines are
pushed and no validation command runs. -/
theorem apply_delta_empty_delta (name host : String) (env : Env) (conn : Conn)
    (txt itxt : String)
    (hc : env.connect = Except.ok conn)
    (ht : conn.showRunning = Except.ok txt)
    (hi : env.readIntended = Except.ok itxt)
    (hd : compute_delta (pySplitlines txt) ((pySplitlines itxt).map pyStrip) = []) :
    (apply_delta name host env).1 =
      Except.ok { name := name, host := host, changed := false, ok := true,
                  message := "already in desired state" } ∧
    (apply_delta name host env).2 = [Event.showCmd, Event.disconnect] := by
  rw [apply_delta_conn name host env conn hc]
  simp [applyDeltaBody, initResult, ht, hi, hd]

/-- C3: backups and mutations are ordered.  The task persists at most one
backup; no mutating step (config-mode entry, delta push, commit, save) ever
occurs before a successfully persisted backup; if any mutating step occurs,
exactly one backup was persisted; and when the computed delta is empty no
backup is created at all. -/
theorem backup_before_mutation (name host : String) (env : Env) (conn : Conn)
    (h : env.connect = Except.ok conn) :
    ((apply_delta name host env).2.count Event.backupPersisted ≤ 1) ∧
    (∀ ev ∈ (apply_delta name host env).2.takeWhile
        (fun e => e ≠ Event.backupPersisted), mutEvent ev = false) ∧
    ((∃ ev ∈ (apply_delta name host env).2, mutEvent ev = true) →
      (apply_delta name host env).2.count Event.backupPersisted = 1) ∧
    (∀ txt itxt, conn.showRunning = Except.ok txt → env.readIntended = Except.ok itxt →
      compute_delta (pySplitlines txt) ((pySplitlines itxt).map pyStrip) = [] →
      (apply_delta name host env).2.count Event.backupPersisted = 0) := by
  rw [apply_delta_conn name host env conn h]
  obtain ⟨vtr, hv, hsh⟩ := body_trace_shapes (initResult name host) conn env
  refine ⟨?_, ?_, ?_, ?_⟩
  · have hz : vtr.count Event.backupPersisted = 0 :=
      count_zero_of_all_validateCmd hv (by decide)
    rcases hsh with h'|h'|h'|h'|h'|h'|h'|h'|h'|h' <;> rw [h'] <;>
      simp [applyPre, List.count_append, hz]
  · have hmv : ∀ ev ∈ vtr, mutEvent ev = false := by
      intro ev hev; rw [hv ev hev]; rfl
    rcases hsh with h'|h'|h'|h'|h'|h'|h'|h'|h'|h' <;> rw [h'] <;>
      simp [applyPre, mutEvent, List.takeWhile_cons, hmv]
  · intro hex
    have hz : vtr.count Event.backupPersisted = 0 :=
      count_zero_of_all_validateCmd hv (by decide)
    have hmv : ∀ ev ∈ vtr, mutEvent ev = false := by
      intro ev hev; rw [hv ev hev]; rfl
    rcases hsh with h'|h'|h'|h'|h'|h'|h'|h'|h'|h' <;> rw [h'] at hex ⊢ <;>
      simp [applyPre, List.count_append, hz] <;>
      · obtain ⟨ev, hev, hmut⟩ := hex
        simp [applyPre, mutEvent] at hev hmut
        rcases hev with h''|h'' <;> simp_all [hmv ev]
  · intro txt itxt ht hi hd
    have hbody : (applyDeltaBody (initResult name host) conn env).2 = [Event.showCmd] := by
      simp [applyDeltaBody, ht, hi, hd]
    rw [hbody]
    simp

/-- C1 (amended): once the session is established no exception escapes the
task (first clause), and an exception at each reachable raise site of the
`try` block — running-config read, intended-file read, backup read, backup
write, config-mode entry, delta push, commit, save, config-mode exit, any
validation command, validation-log write — is caught and converted into a
`DeployResult` with `ok=false` and message `error: …`; every site before
validation completes leaves `changed=false`, and a log-write failure leaves
`changed=true`.  (A failure of `connect` itself, by contrast, happens before
the `try` and propagates: see the counterexample.) -/
theorem task_exceptions_caught_after_connect (name host : String) (env : Env) (conn : Conn)
    (h : env.connect = Except.ok conn) :
    (∃ r : DeployResult, (apply_delta name host env).1 = Except.ok r) ∧
    (∀ e, conn.showRunning = Except.error e →
      (apply_delta name host env).1 =
        Except.ok { name := name, host := host, changed := false, ok := false,
                    message := "error: " ++ e }) ∧
    (∀ txt e, conn.showRunning = Except.ok txt → env.readIntended = Except.error e →
      (apply_delta name host env).1 =
        Except.ok { name := name, host := host, changed := false, ok := false,
                    message := "error: " ++ e }) ∧
    (∀ txt itxt e, conn.showRunning = Except.ok txt → env.readIntended = Except.ok itxt →
      compute_delta (pySplitlines txt) ((pySplitlines itxt).map pyStrip) ≠ [] →
      conn.showBackup = Except.error e →
      (apply_delta name host env).1 =
        Except.ok { name := name, host := host, changed := false, ok := false,
                    message := "error: " ++ e }) ∧
    (∀ txt itxt btxt e, conn.showRunning = Except.ok txt →
      env.readIntended = Except.ok itxt →
      compute_delta (pySplitlines txt) ((pySplitlines itxt).map pyStrip) ≠ [] →
      conn.showBackup = Except.ok btxt → env.writeBackup btxt = Except.error e →
      (apply_delta name host env).1 =
        Except.ok { name := name, host := host, changed := false, ok := false,
                    message := "error: " ++ e }) ∧
    (∀ txt itxt btxt e, conn.showRunning = Except.ok txt →
      env.readIntended = Except.ok itxt →
      compute_delta (pySplitlines txt) ((pySplitlines itxt).map pyStrip) ≠ [] →
      conn.showBackup = Except.ok btxt → env.writeBackup btxt = Except.ok () →
      conn.configMode = Except.error e →
      (apply_delta name host env).1 =
        Except.ok { name := name, host := host, changed := false, ok := false,
                    message := "error: " ++ e }) ∧
    (∀ txt itxt btxt e, conn.showRunning = Except.ok txt →
      env.readIntended = Except.ok itxt →
      compute_delta (pySplitlines txt) ((pySplitlines itxt).map pyStrip) ≠ [] →
      conn.showBackup = Except.ok btxt → env.writeBackup btxt = Except.ok () →
      conn.configMode = Except.ok () →
      conn.pushConfig
          (compute_delta (pySplitlines txt) ((pySplitlines itxt).map pyStrip)) =
        Except.error e →
      (apply_delta name host env).1 =
        Except.ok { name := name, host := host, changed := false, ok := false,
                    message := "error: " ++ e }) ∧
    (∀ txt itxt btxt pout e, conn.showRunning = Except.ok txt →
      env.readIntended = Except.ok itxt →
      compute_delta (pySplitlines txt) ((pySplitlines itxt).map pyStrip) ≠ [] →
      conn.showBackup = Except.ok btxt → env.writeBackup btxt = Except.ok () →
      conn.configMode = Except.ok () →
      conn.pushConfig
          (compute_delta (pySplitlines txt) ((pySplitlines itxt).map pyStrip)) =
        Except.ok pout →
      conn.commitCmd = Except.error e →
      (apply_delta name host env).1 =
        Except.ok { name := name, host := host, changed := false, ok := false,
                    message := "error: " ++ e }) ∧
    (∀ txt itxt btxt pout cout e, conn.showRunning = Except.ok txt →
      env.readIntended = Except.ok itxt →
      compute_delta (pySplitlines txt) ((pySplitlines itxt).map pyStrip) ≠ [] →
      conn.showBackup = Except.ok btxt → env.writeBackup btxt = Except.ok () →
      conn.configMode = Except.ok () →
      conn.pushConfig
          (compute_delta (pySplitlines txt) ((pySplitlines itxt).map pyStrip)) =
        Except.ok pout →
      conn.commitCmd = Except.ok cout → conn.saveCmd = Except.error e →
      (apply_delta name host env).1 =
        Except.ok { name := name, host := host, changed := false, ok := false,
                    message := "error: " ++ e }) ∧
    (∀ txt itxt btxt pout cout sout e, conn.showRunning = Except.ok txt →
      env.readIntended = Except.ok itxt →
      compute_delta (pySplitlines txt) ((pySplitlines itxt).map pyStrip) ≠ [] →
      conn.showBackup = Except.ok btxt → env.writeBackup btxt = Except.ok () →
      conn.configMode = Except.ok () →
      conn.pushConfig
          (compute_delta (pySplitlines txt) ((pySplitlines itxt).map pyStrip)) =
        Except.ok pout →
      conn.commitCmd = Except.ok cout → conn.saveCmd = Except.ok sout →
      conn.exitConfig = Except.error e →
      (apply_delta name host env).1 =
        Except.ok { name := name, host := host, changed := false, ok := false,
                    message := "error: " ++ e }) ∧
    (∀ txt itxt btxt pout cout sout e, conn.showRunning = Except.ok txt →
      env.readIntended = Except.ok itxt →
      compute_delta (pySplitlines txt) ((pySplitlines itxt).map pyStrip) ≠ [] →
      conn.showBackup = Except.ok btxt → env.writeBackup btxt = Except.ok () →
      conn.configMode = Except.ok () →
      conn.pushConfig
          (compute_delta (pySplitlines txt) ((pySplitlines itxt).map pyStrip)) =
        Except.ok pout →
      conn.commitCmd = Except.ok cout → conn.saveCmd = Except.ok sout →
      conn.exitConfig = Except.ok () → (validate_post conn).1 = Except.error e →
      (apply_delta name host env).1 =
        Except.ok { name := name, host := host, changed := false, ok := false,
                    message := "error: " ++ e }) ∧
    (∀ txt itxt btxt pout cout sout b t e, conn.showRunning = Except.ok txt →
      env.readIntended = Except.ok itxt →
      compute_delta (pySplitlines txt) ((pySplitlines itxt).map pyStrip) ≠ [] →
      conn.showBackup = Except.ok btxt → env.writeBackup btxt = Except.ok () →
      conn.configMode = Except.ok () →
      conn.pushConfig
          (compute_delta (pySplitlines txt) ((pySplitlines itxt).map pyStrip)) =
        Except.ok pout →
      conn.commitCmd = Except.ok cout → conn.saveCmd = Except.ok sout →
      conn.exitConfig = Except.ok () → (validate_post conn).1 = Except.ok (b, t) →
      env.writeLog t = Except.error e →
      (apply_delta name host env).1 =
        Except.ok { name := name, host := host, changed := true, ok := false,
                    message := "error: " ++ e }) := by
  rw [apply_delta_conn name host env conn h]
  refine ⟨⟨(applyDeltaBody (initResult name host) conn env).1, rfl⟩,
    ?_, ?_, ?_, ?_, ?_, ?_, ?_, ?_, ?_, ?_, ?_⟩
  · intro e he
    simp [applyDeltaBody, initResult, errResult, he]
  · intro txt e ht he
    simp [applyDeltaBody, initResult, errResult, ht, he]
  · intro txt itxt e ht hi hd he
    simp [applyDeltaBody, initResult, errResult, ht, hi, hd, he]
  · intro txt itxt btxt e ht hi hd hb he
    simp [applyDeltaBody, initResult, errResult, ht, hi, hd, hb, he]
  · intro txt itxt btxt e ht hi hd hb hw he
    simp [applyDeltaBody, initResult, errResult, ht, hi, hd, hb, hw, he]
  · intro txt itxt btxt e ht hi hd hb hw hcm he
    simp [applyDeltaBody, initResult, errResult, ht, hi, hd, hb, hw, hcm, he]
  · intro txt itxt btxt pout e ht hi hd hb hw hcm hp he
    simp [applyDeltaBody, initResult, errResult, ht, hi, hd, hb, hw, hcm, hp, he]
  · intro txt itxt btxt pout cout e ht hi hd hb hw hcm hp hcmt he
    simp [applyDeltaBody, initResult, errResult, ht, hi, hd, hb, hw, hcm, hp, hcmt, he]
  · intro txt itxt btxt pout cout sout e ht hi hd hb hw hcm hp hcmt hsv he
    simp [applyDeltaBody, initResult, errResult, ht, hi, hd, hb, hw, hcm, hp, hcmt,
      hsv, he]
  · intro txt itxt btxt pout cout sout e ht hi hd hb hw hcm hp hcmt hsv hex hve
    rcases hvp : validate_post conn with ⟨v, vtr⟩
    rw [hvp] at hve
    simp only at hve
    subst hve
    simp [applyDeltaBody, initResult, errResult, ht, hi, hd, hb, hw, hcm, hp, hcmt,
      hsv, hex, hvp]
  · intro txt itxt btxt pout cout sout b t e ht hi hd hb hw hcm hp hcmt hsv hex hvb hle
    rcases hvp : validate_post conn with ⟨v, vtr⟩
    rw [hvp] at hvb
    simp only at hvb
    subst hvb
    simp [applyDeltaBody, initResult, errResult, ht, hi, hd, hb, hw, hcm, hp, hcmt,
      hsv, hex, hvp, hle]

lemma validate_post_ok_true (conn : Conn) (b : Bool) (t : String)
    (h : (validate_post conn).1 = Except.ok (b, t)) : b = true := by
  unfold validate_post at h
  repeat' split at h
  all_goals simp_all

/-- C6: the delta never contains a line also present in `running`, and the
delta is empty iff every normalized intended line (trimmed, blanks and
`#`-comments discarded) is already present in `running`. -/
theorem delta_disjoint_running_and_empty_iff (running intended : List String) :
    (∀ l ∈ compute_delta running intended, l ∉ running) ∧
    (compute_delta running intended = [] ↔
      ∀ l ∈ normalizeIntended intended, l ∈ running) := by
  constructor
  · intro l hl; exact (mem_compute_delta hl).2
  · rw [compute_delta_eq_filter]
    constructor
    · intro hnil l hl
      by_contra hr
      have hm : l ∈ (normalizeIntended intended).filter (fun line => line ∉ running) :=
        List.mem_filter.mpr ⟨hl, by simpa using hr⟩
      rw [hnil] at hm
      simp at hm
    · intro hsub
      apply List.filter_eq_nil_iff.mpr
      intro a ha
      simpa using hsub a ha

/-- C7: every delta line is a trimmed member of `intended` and absent from
`running`; the delta is a subsequence of the normalized intended sequence
(so it preserves `intended`'s relative order); and any normalized intended
line missing from `running` is emitted. -/
theorem delta_additive_order_preserving (running intended : List String) :
    (∀ l ∈ compute_delta running intended,
        l ∈ intended.map pyStrip ∧ l ∉ running) ∧
    List.Sublist (compute_delta running intended) (normalizeIntended intended) ∧
    (∀ l ∈ normalizeIntended intended, l ∉ running →
        l ∈ compute_delta running intended) := by
  refine ⟨?_, compute_delta_sublist running intended, ?_⟩
  · intro l hl
    obtain ⟨hn, hr⟩ := mem_compute_delta hl
    exact ⟨List.mem_of_mem_filter hn, hr⟩
  · intro l hl hr
    exact mem_of_normalized_not_running hl hr

/-- C8: applying the computed delta to the running configuration and
recomputing yields the empty delta. -/
theorem delta_apply_idempotent (running intended : List String) :
    compute_delta (running ++ compute_delta running intended) intended = [] := by
  rw [compute_delta_eq_filter (running ++ compute_delta running intended)]
  apply List.filter_eq_nil_iff.mpr
  intro l hl
  by_cases hr : l ∈ running
  · simp [List.mem_append, hr]
  · have hm : l ∈ compute_delta running intended :=
      mem_of_normalized_not_running hl hr
    simp [List.mem_append, hm]

/-- C5 (amended): once the apply sequence has succeeded, the flagged-verdict
path is dead code — a normal return of `validate_post` always carries a
passing verdict — and a Session error during a validation command is caught
like any other exception, producing `ok=false`, `changed=false` and a
generic `error: …` message (no pointer to the backup artifact); when
validation and the log write succeed the result is
`ok=true, changed=true, message="applied delta and validated"`. -/
theorem validation_outcomes (name host : String) (env : Env) (conn : Conn)
    (txt itxt btxt pout cout sout : String)
    (hc : env.connect = Except.ok conn)
    (ht : conn.showRunning = Except.ok txt)
    (hi : env.readIntended = Except.ok itxt)
    (hd : compute_delta (pySplitlines txt) ((pySplitlines itxt).map pyStrip) ≠ [])
    (hb : conn.showBackup = Except.ok btxt)
    (hw : env.writeBackup btxt = Except.ok ())
    (hcm : conn.configMode = Except.ok ())
    (hp : conn.pushConfig
        (compute_delta (pySplitlines txt) ((pySplitlines itxt).map pyStrip)) =
      Except.ok pout)
    (hcmt : conn.commitCmd = Except.ok cout)
    (hsv : conn.saveCmd = Except.ok sout)
    (hex : conn.exitConfig = Except.ok ()) :
    (∀ e, (validate_post conn).1 = Except.error e →
      (apply_delta name host env).1 =
        Except.ok { name := name, host := host, changed := false, ok := false,
                    message := "error: " ++ e }) ∧
    (∀ b t, (validate_post conn).1 = Except.ok (b, t) → b = true) ∧
    (∀ t, (validate_post conn).1 = Except.ok (true, t) →
      env.writeLog t = Except.ok () →
      (apply_delta name host env).1 =
        Except.ok { name := name, host := host, changed := true, ok := true,
                    message := "applied delta and validated" }) := by
  rw [apply_delta_conn name host env conn hc]
  refine ⟨?_, fun b t h => validate_post_ok_true conn b t h, ?_⟩
  · intro e he
    rcases hvp : validate_post conn with ⟨v, vtr⟩
    rw [hvp] at he
    simp only at he
    subst he
    simp [applyDeltaBody, initResult, errResult, ht, hi, hd, hb, hw, hcm, hp, hcmt,
      hsv, hex, hvp]
  · intro t hv hlog
    rcases hvp : validate_post conn with ⟨v, vtr⟩
    rw [hvp] at hv
    simp only at hv
    subst hv
    simp [applyDeltaBody, initResult, ht, hi, hd, hb, hw, hcm, hp, hcmt, hsv, hex,
      hvp, hlog]

/-- C9: the Validator's verdict fails exactly when a Session error occurs on
one of the three fixed diagnostic commands; when all three execute, the
verdict passes regardless of their outputs, and the evidence concatenates
the labeled outputs in command order.  Stated for both `validate_post`
(deploy path, where an error propagates to the task's handler) and
`check_device` (`scripts/validate.py`). -/
theorem validator_verdict_iff_session_error (env : Env) (conn : Conn)
    (hc : env.connect = Except.ok conn) :
    (∀ b t, (validate_post conn).1 = Except.ok (b, t) → b = true) ∧
    ((∃ e, (validate_post conn).1 = Except.error e) ↔
      ((∃ e, conn.valOspf = Except.error e) ∨ (∃ e, conn.valBgp = Except.error e) ∨
       (∃ e, conn.valRoute = Except.error e))) ∧
    (∀ o1 o2 o3, conn.valOspf = Except.ok o1 → conn.valBgp = Except.ok o2 →
      conn.valRoute = Except.ok o3 →
      (validate_post conn).1 = Except.ok (true,
        "\nshow ip ospf neighbor\n" ++ o1 ++ "\n" ++
        "\nshow ip bgp summary\n" ++ o2 ++ "\n" ++
        "\nshow ip route | match 0.0.0.0/0\n" ++ o3) ∧
      check_device env = Except.ok (true,
        renderLogs [("show ip ospf neighbor", o1), ("show ip bgp summary", o2),
          ("show ip route | match 0.0.0.0/0", o3)])) ∧
    (∀ b t, check_device env = Except.ok (b, t) →
      (b = false ↔
        ((∃ e, conn.valOspf = Except.error e) ∨ (∃ e, conn.valBgp = Except.error e) ∨
         (∃ e, conn.valRoute = Except.error e)))) := by
  refine ⟨fun b t h => validate_post_ok_true conn b t h, ?_, ?_, ?_⟩
  · constructor
    · rintro ⟨e, he⟩
      unfold validate_post at he
      rcases h1 : conn.valOspf with e1 | o1 <;> rw [h1] at he
      · exact Or.inl ⟨e1, rfl⟩
      · rcases h2 : conn.valBgp with e2 | o2 <;> rw [h2] at he
        · exact Or.inr (Or.inl ⟨e2, rfl⟩)
        · rcases h3 : conn.valRoute with e3 | o3 <;> rw [h3] at he
          · exact Or.inr (Or.inr ⟨e3, rfl⟩)
          · simp at he
    · rintro (⟨e, he⟩ | ⟨e, he⟩ | ⟨e, he⟩)
      · exact ⟨e, by unfold validate_post; rw [he]⟩
      · rcases h1 : conn.valOspf with e1 | o1
        · exact ⟨e1, by unfold validate_post; rw [h1]⟩
        · exact ⟨e, by unfold validate_post; rw [h1, he]⟩
      · rcases h1 : conn.valOspf with e1 | o1
        · exact ⟨e1, by unfold validate_post; rw [h1]⟩
        · rcases h2 : conn.valBgp with e2 | o2
          · exact ⟨e2, by unfold validate_post; rw [h1, h2]⟩
          · exact ⟨e, by unfold validate_post; rw [h1, h2, he]⟩
  · intro o1 o2 o3 h1 h2 h3
    constructor
    · unfold validate_post; rw [h1, h2, h3]
    · simp [check_device, hc, h1, h2, h3]
  · intro b t hbt
    simp only [check_device, hc] at hbt
    rcases h1 : conn.valOspf with e1 | o1 <;> simp only [h1] at hbt
    · simp only [Except.ok.injEq, Prod.mk.injEq] at hbt
      simp [← hbt.1, h1]
    · rcases h2 : conn.valBgp with e2 | o2 <;> simp only [h2] at hbt
      · simp only [Except.ok.injEq, Prod.mk.injEq] at hbt
        simp only [← hbt.1]
        constructor
        · intro _; exact Or.inr (Or.inl ⟨e2, rfl⟩)
        · intro _; trivial
      · rcases h3 : conn.valRoute with e3 | o3 <;> simp only [h3] at hbt
        · simp only [Except.ok.injEq, Prod.mk.injEq] at hbt
          simp only [← hbt.1]
          constructor
          · intro _; exact Or.inr (Or.inr ⟨e3, rfl⟩)
          · intro _; trivial
        · simp only [Except.ok.injEq, Prod.mk.injEq] at hbt
          simp only [← hbt.1]
          constructor
          · intro h'; cases h'
          · rintro (⟨e, he⟩ | ⟨e, he⟩ | ⟨e, he⟩) <;> simp_all

/-- C2 (amended): when every device's `connect` succeeds, the run returns
exactly one `DeployResult` per device, and each result is the one computed
by that device's own task from its own environment — so no device's failure
after connect can alter another device's `ok`/`changed` fields.  (When some
device's `connect` fails, the run instead aborts with that exception: see
the counterexample.) -/
theorem run_one_result_per_device (devs : List Device)
    (h : ∀ d ∈ devs, ∃ conn : Conn, d.env.connect = Except.ok conn) :
    ∃ rs : List DeployResult, runDeploy devs = Except.ok rs ∧
      rs.length = devs.length ∧
      List.Forall₂ (fun (d : Device) (r : DeployResult) =>
        (apply_delta d.name d.host d.env).1 = Except.ok r) devs rs := by
  induction devs with
  | nil => exact ⟨[], rfl, rfl, List.Forall₂.nil⟩
  | cons d rest ih =>
    obtain ⟨conn, hconn⟩ := h d (List.mem_cons_self d rest)
    obtain ⟨rs, hrs, hlen, hfa⟩ := ih (fun d' hd' => h d' (List.mem_cons_of_mem d hd'))
    refine ⟨(applyDeltaBody (initResult d.name d.host) conn d.env).1 :: rs,
      ?_, by simp [hlen], ?_⟩
    · simp [runDeploy, apply_delta_conn d.name d.host d.env conn hconn, hrs]
    · exact List.Forall₂.cons
        (by rw [apply_delta_conn d.name d.host d.env conn hconn]) hfa

/-! Concrete sessions and environments used to instantiate the theorems. -/

/-- A session whose every interaction succeeds with fixed outputs. -/
def okConn : Conn :=
  { showRunning := .ok ""
    showBackup := .ok ""
    configMode := .ok ()
    pushConfig := fun _ => .ok "ack"
    commitCmd := .ok "Commit complete"
    saveCmd := .ok "Done"
    exitConfig := .ok ()
    valOspf := .ok "Neighbor ID"
    valBgp := .ok "Estab"
    valRoute := .ok "S>* 0.0.0.0/0"
    configModeRetry := .ok () }

/-- Environment whose intended config is empty: the idempotence fast path. -/
def okEnv : Env :=
  { connect := .ok okConn
    readIntended := .ok ""
    writeBackup := fun _ => .ok ()
    writeLog := fun _ => .ok () }

/-- Environment with a non-empty delta (`set a` missing from the device). -/
def okEnvChange : Env := { okEnv with readIntended := .ok "set a" }

/-- Environment whose `connect` raises. -/
def connFailEnv : Env := { okEnv with connect := .error "ConnectionError: unreachable" }

/-- Session whose first remote command raises after a successful connect. -/
def firstCmdFailConn : Conn := { okConn with showRunning := .error "timeout" }

def firstCmdFailEnv : Env := { okEnv with connect := .ok firstCmdFailConn }

/-- Session that raises on the `commit` step after a successful push. -/
def commitFailConn : Conn := { okConn with commitCmd := .error "commit failed" }

def commitFailEnv : Env :=
  { okEnv with connect := .ok commitFailConn, readIntended := .ok "set a" }

/-- Session that raises while executing the first validation diagnostic. -/
def valFailConn : Conn := { okConn with valOspf := .error "read timeout" }

def valFailEnv : Env :=
  { okEnv with connect := .ok valFailConn, readIntended := .ok "set a" }

def devA : Device := { name := "r1", host := "10.0.0.1", env := okEnv }

def devB : Device := { name := "r2", host := "10.0.0.2", env := connFailEnv }

def devC : Device := { name := "r3", host := "10.0.0.3", env := okEnv }

/-- C1 counterexample: a failure of `connect(host)` — which happens before
the `try` block — propagates out of `apply_delta` as an exception instead of
being converted into a `DeployResult`. -/
theorem connect_failure_propagates_cex :
    (apply_delta "r1" "10.0.0.1" connFailEnv).1 =
      Except.error "ConnectionError: unreachable" := rfl

/-- C1 witness: with the session established, a failing first command, and a
failing `commit` deep inside the apply sequence, are both caught and
converted into a `DeployResult` with `ok=false, changed=false`. -/
theorem task_exceptions_caught_after_connect_witness :
    ((apply_delta "r1" "10.0.0.1" firstCmdFailEnv).1 =
      Except.ok { name := "r1", host := "10.0.0.1", changed := false, ok := false,
                  message := "error: " ++ "timeout" }) ∧
    ((apply_delta "r2" "10.0.0.2" commitFailEnv).1 =
      Except.ok { name := "r2", host := "10.0.0.2", changed := false, ok := false,
                  message := "error: " ++ "commit failed" }) :=
  ⟨(task_exceptions_caught_after_connect "r1" "10.0.0.1" firstCmdFailEnv
      firstCmdFailConn rfl).2.1 "timeout" rfl,
   (task_exceptions_caught_after_connect "r2" "10.0.0.2" commitFailEnv
      commitFailConn rfl).2.2.2.2.2.2.2.1 "" "set a" "" "ack" "commit failed"
      rfl rfl (by decide) rfl rfl rfl rfl rfl⟩

/-- C2 counterexample: in a three-device run where the second device fails
at `connect`, `fut.result()` re-raises and the run aborts with that
exception instead of returning three results. -/
theorem run_aborts_on_connect_failure_cex :
    runDeploy [devA, devB, devC] = Except.error "ConnectionError: unreachable" := rfl

/-- C2 witness: a run over a device list whose connects all succeed returns
exactly one result per device. -/
theorem run_one_result_per_device_witness :
    ∃ rs : List DeployResult, runDeploy [devA] = Except.ok rs ∧
      rs.length = [devA].length ∧
      List.Forall₂ (fun (d : Device) (r : DeployResult) =>
        (apply_delta d.name d.host d.env).1 = Except.ok r) [devA] rs :=
  run_one_result_per_device [devA] (fun d hd => by
    rw [List.mem_singleton] at hd
    subst hd
    exact ⟨okConn, rfl⟩)

/-- C3 witness: the ordering invariant instantiated on a concrete run with a
non-empty delta. -/
theorem backup_before_mutation_witness :
    ((apply_delta "r1" "10.0.0.1" okEnvChange).2.count Event.backupPersisted ≤ 1) ∧
    (∀ ev ∈ (apply_delta "r1" "10.0.0.1" okEnvChange).2.takeWhile
        (fun e => e ≠ Event.backupPersisted), mutEvent ev = false) ∧
    ((∃ ev ∈ (apply_delta "r1" "10.0.0.1" okEnvChange).2, mutEvent ev = true) →
      (apply_delta "r1" "10.0.0.1" okEnvChange).2.count Event.backupPersisted = 1) ∧
    (∀ txt itxt, okConn.showRunning = Except.ok txt →
      okEnvChange.readIntended = Except.ok itxt →
      compute_delta (pySplitlines txt) ((pySplitlines itxt).map pyStrip) = [] →
      (apply_delta "r1" "10.0.0.1" okEnvChange).2.count Event.backupPersisted = 0) :=
  backup_before_mutation "r1" "10.0.0.1" okEnvChange okConn rfl

/-- C4 witness: the empty-delta fast path on a concrete run. -/
theorem apply_delta_empty_delta_witness :
    (apply_delta "r1" "10.0.0.1" okEnv).1 =
      Except.ok { name := "r1", host := "10.0.0.1", changed := false, ok := true,
                  message := "already in desired state" } ∧
    (apply_delta "r1" "10.0.0.1" okEnv).2 = [Event.showCmd, Event.disconnect] :=
  apply_delta_empty_delta "r1" "10.0.0.1" okEnv okConn "" "" rfl rfl rfl rfl

/-- C5 counterexample: the delta is applied, then the Session raises on the
first validation diagnostic: the result has `changed=false` (not `true`) and
a generic error message with no pointer to the backup artifact. -/
theorem validation_error_changed_false_cex :
    (apply_delta "r1" "10.0.0.1" valFailEnv).1 =
      Except.ok { name := "r1", host := "10.0.0.1", changed := false, ok := false,
                  message := "error: read timeout" } := rfl

/-- C5 witness: the all-success validation path of the amended claim on a
concrete run. -/
theorem validation_outcomes_witness :
    (apply_delta "r1" "10.0.0.1" okEnvChange).1 =
      Except.ok { name := "r1", host := "10.0.0.1", changed := true, ok := true,
                  message := "applied delta and validated" } :=
  (validation_outcomes "r1" "10.0.0.1" okEnvChange okConn "" "set a" "" "ack"
    "Commit complete" "Done" rfl rfl rfl (by decide) rfl rfl rfl rfl rfl rfl
    rfl).2.2 _ rfl rfl

/-- C9 witness: the validator contract instantiated on a concrete session. -/
theorem validator_verdict_iff_session_error_witness :
    (∀ b t, (validate_post okConn).1 = Except.ok (b, t) → b = true) ∧
    ((∃ e, (validate_post okConn).1 = Except.error e) ↔
      ((∃ e, okConn.valOspf = Except.error e) ∨ (∃ e, okConn.valBgp = Except.error e) ∨
       (∃ e, okConn.valRoute = Except.error e))) ∧
    (∀ o1 o2 o3, okConn.valOspf = Except.ok o1 → okConn.valBgp = Except.ok o2 →
      okConn.valRoute = Except.ok o3 →
      (validate_post okConn).1 = Except.ok (true,
        "\nshow ip ospf neighbor\n" ++ o1 ++ "\n" ++
        "\nshow ip bgp summary\n" ++ o2 ++ "\n" ++
        "\nshow ip route | match 0.0.0.0/0\n" ++ o3) ∧
      check_device okEnv = Except.ok (true,
        renderLogs [("show ip ospf neighbor", o1), ("show ip bgp summary", o2),
          ("show ip route | match 0.0.0.0/0", o3)])) ∧
    (∀ b t, check_device okEnv = Except.ok (b, t) →
      (b = false ↔
        ((∃ e, okConn.valOspf = Except.error e) ∨ (∃ e, okConn.valBgp = Except.error e) ∨
         (∃ e, okConn.valRoute = Except.error e)))) :=
  validator_verdict_iff_session_error okEnv okConn rfl

/-- C10 witness: the disconnect invariant on a concrete run. -/
theorem apply_delta_disconnect_once_witness :
    ((apply_delta "r1" "10.0.0.1" okEnv).2.count Event.disconnect = 1) ∧
    (apply_delta "r1" "10.0.0.1" okEnv).2.getLast? = some Event.disconnect :=
  apply_delta_disconnect_once "r1" "10.0.0.1" okEnv okConn rfl

end NetDeploy
